import Mathlib

/-!
Verification development for the SA-ConvLSTM-Pytorch repository.

The repository composes pre-built neural-network layers into sequence models
(ConvLSTM and Self-Attention ConvLSTM), with a training loop with early
stopping, an evaluator, and a data loader that slices the Moving MNIST video
dataset into input/target windows.

This file gives a shallow embedding of the pieces of the repository that the
claims are about:

* `src/self_attention_convlstm/seq2seq.py` — the `SASeq2Seq` module: its
  constructor (the layer list it builds), its `forward`, and
  `get_attention_maps`.
* `src/pipelines/moving_mnist_pipeline/convlstm.py` — the `main` pipeline
  order and the early-stopping configuration it uses.
* The `MovingMNISTDataLoaders` class and the `EarlyStopping`/`Trainer`
  classes are code of the repository that is NOT included under `src/`
  (only their test and their caller are); those parts are modelled from the
  specification's words and from the contract their test asserts, and each
  such definition is marked `Modelled from the spec:` in its doc comment.
-/

namespace SAConvLSTMRepo

/-! ## Model of SASeq2Seq (src/self_attention_convlstm/seq2seq.py)

A PyTorch module built by the `SASeq2Seq` constructor is represented by the
ordered list of named submodules its `nn.Sequential` holds.  The constructor
arguments of one `SAConvLSTM` submodule are recorded literally. -/

/-- The keyword arguments passed to one `SAConvLSTM(...)` construction in
`SASeq2Seq.__init__` (seq2seq.py lines 63-75 and 84-96).  `frame_size` is the
pair (frameHeight, frameWidth); kernel size is modelled as one natural
number and `padding`, `activation`, `weights_initializer` as strings. -/
structure SAConvLSTMArgs where
  attentionHiddenDims : ℕ
  inChannels : ℕ
  outChannels : ℕ
  kernelSize : ℕ
  padding : String
  activation : String
  frameHeight : ℕ
  frameWidth : ℕ
  weightsInitializer : String
deriving DecidableEq

/-- One submodule of the `nn.Sequential` built by `SASeq2Seq.__init__`:
a `SAConvLSTM` layer (with, after a forward pass, its stored
`attention_scores` tensor, represented by its shape, `none` before any
forward), a `nn.LayerNorm` (with its `normalized_shape` list), the final
`nn.Conv3d` (in channels, out channels, kernel size triple, padding), or the
final `nn.Sigmoid`. -/
inductive Layer where
  | saconvlstm (args : SAConvLSTMArgs) (attentionScores : Option (ℕ × ℕ × ℕ))
  | layernorm (normalizedShape : List ℕ)
  | conv3d (inChannels : ℕ) (outChannels : ℕ) (kernelSize : ℕ × ℕ × ℕ) (padding : String)
  | sigmoid
deriving DecidableEq

/-- The arguments of `SASeq2Seq.__init__` (seq2seq.py lines 20-34).
`num_layers` is an `int` in Python and may be zero or negative, so it is
modelled as `ℤ`.  `out_channels: Optional[int] = None` is an `Option`. -/
structure SASeq2SeqArgs where
  attentionHiddenDims : ℕ
  numChannels : ℕ
  kernelSize : ℕ
  numKernels : ℕ
  padding : String
  activation : String
  frameHeight : ℕ
  frameWidth : ℕ
  numLayers : ℤ
  inputSeqLength : ℕ
  outChannels : Option ℕ
  weightsInitializer : String
  returnSequences : Bool
deriving DecidableEq

/-- seq2seq.py line 56:
`self.out_channels = out_channels if out_channels is not None else num_channels`. -/
def SASeq2Seq.outChannelsResolved (a : SASeq2SeqArgs) : ℕ :=
  match a.outChannels with
  | some c => c
  | none => a.numChannels

/-- Helper for Python `range(s, e)` over `ℤ`: `intRangeAux s n = [s, s+1, ..., s+n-1]`. -/
def intRangeAux (s : ℤ) : ℕ → List ℤ
  | 0 => []
  | n + 1 => s :: intRangeAux (s + 1) n

/-- Python `range(s, e)` over `ℤ` (empty when `e ≤ s`). -/
def intRange (s e : ℤ) : List ℤ :=
  intRangeAux s (e - s).toNat

/-- The `SAConvLSTM(...)` argument record built inside `SASeq2Seq.__init__`
(identical at every layer except for `in_channels`). -/
def mkSAConvLSTMArgs (a : SASeq2SeqArgs) (inCh : ℕ) : SAConvLSTMArgs :=
  { attentionHiddenDims := a.attentionHiddenDims
    inChannels := inCh
    outChannels := a.numKernels
    kernelSize := a.kernelSize
    padding := a.padding
    activation := a.activation
    frameHeight := a.frameHeight
    frameWidth := a.frameWidth
    weightsInitializer := a.weightsInitializer }

/-- The `normalized_shape` list passed to every `nn.LayerNorm` in
`SASeq2Seq.__init__` (seq2seq.py lines 79 and 100):
`[num_kernels, input_seq_length, *frame_size]`. -/
def lnShape (a : SASeq2SeqArgs) : List ℕ :=
  [a.numKernels, a.inputSeqLength, a.frameHeight, a.frameWidth]

/-- The named submodule list built by `SASeq2Seq.__init__`
(seq2seq.py lines 60-113): first `sa_convlstm1` (with
`in_channels=num_channels`) and `layernorm1`, then for each
`layer_idx in range(2, num_layers + 1)` a `sa_convlstm{layer_idx}` (with
`in_channels=num_kernels`) and a `layernorm{layer_idx}`, then `conv3d`
(from `num_kernels` to the resolved `out_channels`, kernel `(3,3,3)`,
padding `'same'`) and `sigmoid`. -/
def SASeq2Seq.sequential (a : SASeq2SeqArgs) : List (String × Layer) :=
  [("sa_convlstm1", Layer.saconvlstm (mkSAConvLSTMArgs a a.numChannels) none),
   ("layernorm1", Layer.layernorm (lnShape a))]
  ++ ((intRange 2 (a.numLayers + 1)).flatMap fun i =>
      [("sa_convlstm" ++ Int.repr i,
        Layer.saconvlstm (mkSAConvLSTMArgs a a.numKernels) none),
       ("layernorm" ++ Int.repr i, Layer.layernorm (lnShape a))])
  ++ [("conv3d",
       Layer.conv3d a.numKernels (SASeq2Seq.outChannelsResolved a) (3, 3, 3) "same"),
      ("sigmoid", Layer.sigmoid)]

/-- Python `module.__class__.__name__ == "SAConvLSTM"` (seq2seq.py line 129). -/
def Layer.isSAConvLSTM : Layer → Bool
  | .saconvlstm _ _ => true
  | _ => false

/-- `self.named_modules()` as seen by `get_attention_maps` (seq2seq.py
line 128): the direct children of `self.sequential`, with hierarchical names
`sequential.<child name>`.  PyTorch's `named_modules()` also yields the root
module `("", self)`, the container `("sequential", ...)`, and the submodules
inside each `SAConvLSTM`; all of those have class names different from
`"SAConvLSTM"` and are discarded by the filter in `get_attention_maps`, so
the model lists exactly the sequential's direct children. -/
def SASeq2Seq.namedModules (a : SASeq2SeqArgs) : List (String × Layer) :=
  (SASeq2Seq.sequential a).map fun nl => ("sequential." ++ nl.1, nl.2)

/-- `SASeq2Seq.get_attention_maps` (seq2seq.py lines 124-133): filter the
named modules by class name `SAConvLSTM` and map each name to that module's
stored `attention_scores`. -/
def getAttentionMaps (modules : List (String × Layer)) :
    List (String × Option (ℕ × ℕ × ℕ)) :=
  modules.filterMap fun nl =>
    match nl.2 with
    | .saconvlstm _ sc => some (nl.1, sc)
    | _ => none

/-- Modelled from the spec: the effect of one forward pass on a module's
stored state.  The `SAConvLSTM` class itself is not under `src/`; the source
comment at seq2seq.py line 133 states
`attention scores shape is (batch_size, seq_length, height * width)`, so a
forward pass with batch size `batch` and sequence length `seqLen` leaves each
`SAConvLSTM` module with an `attention_scores` tensor of shape
`(batch, seqLen, frameHeight * frameWidth)`.  Other layers carry no state. -/
def forwardAttnLayer (batch seqLen : ℕ) : Layer → Layer
  | .saconvlstm args _ =>
      .saconvlstm args (some (batch, seqLen, args.frameHeight * args.frameWidth))
  | l => l

/-! ## Shape semantics of the layer stack -/

/-- The shape of a 5-dimensional tensor
`(batch, channels, time, height, width)`, the layout `SASeq2Seq` works with
(its `forward` slices dimension 2 as time). -/
structure TensorShape where
  batch : ℕ
  channels : ℕ
  time : ℕ
  height : ℕ
  width : ℕ
deriving DecidableEq

/-- Shape behaviour of one submodule.  `nn.LayerNorm` requires its
`normalized_shape` to match the trailing dimensions and preserves the shape;
`nn.Conv3d` with padding `'same'` preserves the three spatial/temporal
dimensions and maps `in_channels` to `out_channels`; `nn.Sigmoid` is
elementwise.  For `SAConvLSTM` (whose implementation is not under `src/`)
this is modelled from the spec: a ConvLSTM layer maps `in_channels` feature
maps of the configured frame size to `out_channels` feature maps, preserving
the temporal length and the frame size.  `none` means the layer rejects the
input shape. -/
def layerOutShape : Layer → TensorShape → Option TensorShape
  | .saconvlstm args _, s =>
      if s.channels = args.inChannels ∧ s.height = args.frameHeight
          ∧ s.width = args.frameWidth then
        some { s with channels := args.outChannels }
      else none
  | .layernorm shape, s =>
      if shape = [s.channels, s.time, s.height, s.width] then some s else none
  | .conv3d cin cout _ pad, s =>
      if s.channels = cin ∧ pad = "same" then some { s with channels := cout }
      else none
  | .sigmoid, s => some s

/-- Shape of the output of a stack of layers applied in order. -/
def stackShape : List Layer → TensorShape → Option TensorShape
  | [], s => some s
  | l :: ls, s => (layerOutShape l s).bind (stackShape ls)

/-- Output shape of `SASeq2Seq.forward` (seq2seq.py lines 115-122): the
sequential stack's output shape, with the temporal dimension cut to 1 when
`return_sequences` is not `True` (the slice `output[:, :, -1:, ...]`). -/
def SASeq2Seq.forwardShape (a : SASeq2SeqArgs) (s : TensorShape) :
    Option TensorShape :=
  (stackShape ((SASeq2Seq.sequential a).map Prod.snd) s).map fun o =>
    if a.returnSequences then o else { o with time := 1 }

/-! ## Element-level semantics of forward's slicing -/

/-- A 5-dimensional tensor: a shape and a total indexing function
(out-of-range indices read arbitrary values, as the shape bounds them). -/
structure Tensor where
  shape : TensorShape
  data : ℕ → ℕ → ℕ → ℕ → ℕ → ℚ

/-- The slice `output[:, :, -1:, ...]` (seq2seq.py line 122): keep only the
last time step, retaining the temporal dimension at size 1. -/
def sliceLastTimeStep (t : Tensor) : Tensor :=
  { shape := { t.shape with time := 1 }
    data := fun b c ti h w => t.data b c (t.shape.time - 1 + ti) h w }

/-- `SASeq2Seq.forward` (seq2seq.py lines 115-122): run the input through the
sequential stack (abstracted as `sequentialFn`), return the full output when
`self.return_sequences is True`, otherwise `output[:, :, -1:, ...]`. -/
def SASeq2Seq.forward (sequentialFn : Tensor → Tensor) (returnSequences : Bool)
    (X : Tensor) : Tensor :=
  let output := sequentialFn X
  if returnSequences then output else sliceLastTimeStep output

/-! ## Model of MovingMNISTDataLoaders

The class `MovingMNISTDataLoaders` (`data_loaders/moving_mnist.py`) is code
of this repository that is not under `src/`; only its test
(`src/tests/data_loaders/test_moving_mnist.py`) is.  It is modelled from the
spec — "a data loader that slices a video dataset into input/target
windows", a partition into train/validation/test loaders — and from the
contract the test asserts: for a dataset of 10 videos with
`train_batch_size=2` the three loaders have 4, 2 and 1 batches, which under
standard `DataLoader` semantics (`len = ceil(n / batch_size)`, no
`drop_last`) forces a 7/2/1 split with the validation and test loaders using
batch size 1. -/

/-- Moving MNIST videos have 20 frames. -/
def movingMNISTNumFrames : ℕ := 20

/-- Modelled from the spec: slice one video into an input window (the first
`inputFrames` frames) and a target window (the next `inputFrames` frames);
the test asserts both windows have temporal size `input_frames`. -/
def windowVideo (inputFrames : ℕ) (v : List α) : List α × List α :=
  (v.take inputFrames, (v.drop inputFrames).take inputFrames)

/-- Modelled from the spec: the training split, the first 70% of the dataset
(`int(0.7 * n)` videos). -/
def trainSplit (ds : List α) : List α :=
  ds.take (ds.length * 7 / 10)

/-- Modelled from the spec: the validation split, the next 20% of the
dataset (`int(0.2 * n)` videos after the training split). -/
def validationSplit (ds : List α) : List α :=
  (ds.drop (ds.length * 7 / 10)).take (ds.length * 2 / 10)

/-- Modelled from the spec: the test split, the remaining videos. -/
def testSplit (ds : List α) : List α :=
  (ds.drop (ds.length * 7 / 10)).drop (ds.length * 2 / 10)

/-- Split a list into consecutive batches of `bs` elements (the last batch
keeps the remainder); `fuel` bounds the recursion and is instantiated with
the list length. -/
def chunkAux (bs : ℕ) : ℕ → List α → List (List α)
  | _, [] => []
  | 0, _ :: _ => []
  | fuel + 1, x :: xs => ((x :: xs).take bs) :: chunkAux bs fuel ((x :: xs).drop bs)

/-- The batches a `DataLoader` with batch size `bs` (without `drop_last`)
yields from a list of samples. -/
def chunked (bs : ℕ) (l : List α) : List (List α) :=
  chunkAux bs l.length l

/-- The three dataloaders; each batch is a list of (input window, target
window) samples. -/
structure MovingMNISTDataLoaders (α : Type) where
  trainDataloader : List (List (List α × List α))
  validationDataloader : List (List (List α × List α))
  testDataloader : List (List (List α × List α))

/-- Modelled from the spec: `MovingMNISTDataLoaders(train_batch_size,
input_frames)` splits the dataset 70/20/remainder into train, validation and
test sets, slices every video into input/target windows, and wraps the
training set in a loader with batch size `train_batch_size` and the
validation and test sets in loaders with batch size 1. -/
def MovingMNISTDataLoaders.ofDataset (ds : List (List α))
    (trainBatchSize inputFrames : ℕ) : MovingMNISTDataLoaders α :=
  { trainDataloader := chunked trainBatchSize ((trainSplit ds).map (windowVideo inputFrames))
    validationDataloader := chunked 1 ((validationSplit ds).map (windowVideo inputFrames))
    testDataloader := chunked 1 ((testSplit ds).map (windowVideo inputFrames)) }

/-- The mocked dataset of the test
(`src/tests/data_loaders/test_moving_mnist.py` line 12): 10 videos of 20
frames each; frame contents are irrelevant to the loader. -/
def mockMovingMNIST : List (List ℕ) :=
  List.replicate 10 (List.range movingMNISTNumFrames)

/-! ## Model of EarlyStopping and Trainer

`EarlyStopping` (`pipelines/utils/early_stopping.py`) and `Trainer`
(`pipelines/trainer.py`) are code of this repository that is not under
`src/`; only their caller (`src/pipelines/moving_mnist_pipeline/convlstm.py`)
is.  They are modelled from the spec: "Early stopping: a training heuristic
that halts training when a monitored validation metric stops improving by
more than a threshold for a set number of epochs." -/

/-- Modelled from the spec: the `EarlyStopping` state — the configured
patience and delta, the best validation metric seen so far, the count of
consecutive epochs without sufficient improvement, and the stop flag. -/
structure EarlyStopping where
  patience : ℕ
  delta : ℚ
  bestScore : Option ℚ
  counter : ℕ
  earlyStop : Bool

/-- Modelled from the spec: feed one epoch's validation metric (a loss, the
pipeline monitors validation MSE) to early stopping.  An improvement by more
than `delta` records the new best and resets the counter; otherwise the
counter grows, and once `patience` consecutive epochs have failed to
improve, the stop flag is raised. -/
def EarlyStopping.step (es : EarlyStopping) (valLoss : ℚ) : EarlyStopping :=
  match es.bestScore with
  | none => { es with bestScore := some valLoss, counter := 0 }
  | some best =>
      if valLoss < best - es.delta then
        { es with bestScore := some valLoss, counter := 0 }
      else
        { es with counter := es.counter + 1
                  earlyStop := es.earlyStop || decide (es.patience ≤ es.counter + 1) }

/-- Modelled from the spec: `Trainer.run` iterates epochs (capped by
`train_epochs`, the length of `valLosses`), after each epoch feeds the
validation metric to early stopping, and breaks out of the loop as soon as
the stop flag is raised.  Returns the number of epochs executed. -/
def Trainer.run (es : EarlyStopping) : List ℚ → ℕ
  | [] => 0
  | v :: vs =>
      let es2 := es.step v
      if es2.earlyStop then 1 else 1 + Trainer.run es2 vs

/-! ## The ConvLSTM pipeline's main()
(src/pipelines/moving_mnist_pipeline/convlstm.py lines 13-93) -/

/-- The phases `main()` executes. -/
inductive PipelineEvent where
  | constructDataLoaders
  | constructModel
  | constructTrainer
  | trainerRun
  | constructEvaluator
  | evaluatorRun
deriving DecidableEq

/-- The straight-line body of `main()`: it constructs the
`MovingMNISTDataLoaders` (line 36), the `Seq2Seq` model (line 45), the
`Trainer` (line 70), calls `trainer.run()` (line 82), then constructs the
`Evaluator` on the test dataloader (line 88) and calls `evaluator.run()`
(line 93).  The trace records these calls in program order. -/
def mainTrace : List PipelineEvent :=
  [.constructDataLoaders, .constructModel, .constructTrainer, .trainerRun,
   .constructEvaluator, .evaluatorRun]

/-- The example configuration of seq2seq.py's `__main__` block
(lines 140-151), used to instantiate the universally quantified theorems. -/
def exampleArgs : SASeq2SeqArgs :=
  { attentionHiddenDims := 4
    numChannels := 3
    kernelSize := 3
    numKernels := 4
    padding := "same"
    activation := "relu"
    frameHeight := 16
    frameWidth := 16
    numLayers := 4
    inputSeqLength := 6
    outChannels := none
    weightsInitializer := "zeros"
    returnSequences := true }

/-- The layer sequence as the spec describes it (for comparison with
`SASeq2Seq.sequential`): for `num_layers ≥ 1`, exactly `num_layers`
`SAConvLSTM` layers, each immediately followed by a `LayerNorm` over
`[num_kernels, input_seq_length, height, width]`, the first with
`in_channels = num_channels` and every subsequent one with
`in_channels = num_kernels`, all with `out_channels = num_kernels`; then a
single `Conv3d` from `num_kernels` to the resolved `out_channels` with
kernel size `(3,3,3)` and `'same'` padding, then a `Sigmoid`. -/
def layeredStackSpec (a : SASeq2SeqArgs) : List (String × Layer) :=
  ((intRange 1 (a.numLayers + 1)).flatMap fun i =>
    [("sa_convlstm" ++ Int.repr i,
      Layer.saconvlstm
        (mkSAConvLSTMArgs a (if i = 1 then a.numChannels else a.numKernels)) none),
     ("layernorm" ++ Int.repr i, Layer.layernorm (lnShape a))])
  ++ [("conv3d",
       Layer.conv3d a.numKernels (SASeq2Seq.outChannelsResolved a) (3, 3, 3) "same"),
      ("sigmoid", Layer.sigmoid)]

/-- The attention-map dictionary as the spec describes it (for comparison
with `getAttentionMaps`): one entry per `SAConvLSTM` submodule, in order,
mapping the module's name to its `attention_scores` of shape
`(batch_size, seq_length, height * width)`. -/
def attentionMapsSpec (a : SASeq2SeqArgs) (batch seqLen : ℕ) :
    List (String × Option (ℕ × ℕ × ℕ)) :=
  (intRange 1 (a.numLayers + 1)).map fun i =>
    ("sequential.sa_convlstm" ++ Int.repr i,
     some (batch, seqLen, a.frameHeight * a.frameWidth))

/-! ## Helper lemmas -/

theorem intRange_eq_cons (s e : ℤ) (h : s < e) :
    intRange s e = s :: intRange (s + 1) e := by
  unfold intRange
  have h1 : (e - s).toNat = (e - (s + 1)).toNat + 1 := by omega
  rw [h1]
  rfl

theorem length_intRangeAux (s : ℤ) (m : ℕ) : (intRangeAux s m).length = m := by
  induction m generalizing s with
  | zero => rfl
  | succ m ih => simp [intRangeAux, ih]

theorem intRangeAux_flatMap_congr {β : Type} (f g : ℤ → List β) :
    ∀ (m : ℕ) (s : ℤ), (∀ i, s ≤ i → f i = g i) →
      (intRangeAux s m).flatMap f = (intRangeAux s m).flatMap g := by
  intro m
  induction m with
  | zero => intro s _; rfl
  | succ m ih =>
      intro s h
      simp only [intRangeAux, List.flatMap_cons]
      rw [h s le_rfl, ih (s + 1) fun i hi => h i (by omega)]

theorem intRange_flatMap_congr {β : Type} (f g : ℤ → List β) (s e : ℤ)
    (h : ∀ i, s ≤ i → f i = g i) :
    (intRange s e).flatMap f = (intRange s e).flatMap g :=
  intRangeAux_flatMap_congr f g (e - s).toNat s h

theorem chunkAux_nil {α : Type} (bs fuel : ℕ) :
    chunkAux bs fuel ([] : List α) = [] := by
  cases fuel <;> rfl

theorem mem_of_mem_chunkAux {α : Type} {bs : ℕ} :
    ∀ {fuel : ℕ} {l b : List α}, b ∈ chunkAux bs fuel l → ∀ x ∈ b, x ∈ l := by
  intro fuel
  induction fuel with
  | zero => intro l b hb; cases l <;> simp [chunkAux] at hb
  | succ fuel ih =>
      intro l b hb x hx
      cases l with
      | nil => simp [chunkAux] at hb
      | cons y ys =>
          simp only [chunkAux, List.mem_cons] at hb
          rcases hb with hb | hb
          · exact List.take_subset _ _ (hb ▸ hx)
          · exact List.drop_subset _ _ (ih hb x hx)

theorem length_of_mem_dropLast_chunkAux {α : Type} {bs : ℕ} (hbs : 0 < bs) :
    ∀ (fuel : ℕ) (l : List α), l.length ≤ fuel →
      ∀ b ∈ (chunkAux bs fuel l).dropLast, b.length = bs := by
  intro fuel
  induction fuel with
  | zero =>
      intro l hl b hb
      have : l = [] := List.eq_nil_of_length_eq_zero (by omega)
      subst this
      simp [chunkAux_nil] at hb
  | succ fuel ih =>
      intro l hl b hb
      cases l with
      | nil => simp [chunkAux_nil] at hb
      | cons y ys =>
          simp only [chunkAux] at hb
          rcases eq_or_ne (chunkAux bs fuel ((y :: ys).drop bs)) [] with hr | hr
          · rw [hr] at hb; simp at hb
          · rw [List.dropLast_cons_of_ne_nil hr, List.mem_cons] at hb
            have hdrop : (y :: ys).drop bs ≠ [] := by
              intro hnil
              exact hr (hnil ▸ chunkAux_nil bs fuel)
            have hlen : bs < (y :: ys).length := by
              by_contra hle
              exact hdrop (List.drop_eq_nil_iff.mpr (by omega))
            rcases hb with hb | hb
            · subst hb
              rw [List.length_take]
              omega
            · refine ih ((y :: ys).drop bs) ?_ b hb
              rw [List.length_drop]
              omega

theorem stackShape_append (l1 l2 : List Layer) (s : TensorShape) :
    stackShape (l1 ++ l2) s = (stackShape l1 s).bind fun s2 => stackShape l2 s2 := by
  induction l1 generalizing s with
  | nil => simp [stackShape]
  | cons l ls ih =>
      simp only [List.cons_append, stackShape]
      cases layerOutShape l s with
      | none => rfl
      | some s2 => simp [ih]

theorem filterMap_intRangeAux_flatMap {β γ : Type} (f : ℤ → List β) (g : β → Option γ) :
    ∀ (m : ℕ) (s : ℤ),
      ((intRangeAux s m).flatMap f).filterMap g
        = (intRangeAux s m).flatMap fun i => (f i).filterMap g := by
  intro m
  induction m with
  | zero => intro s; rfl
  | succ m ih =>
      intro s
      simp only [intRangeAux, List.flatMap_cons, List.filterMap_append, ih]

theorem map_intRangeAux_flatMap {β γ : Type} (f : ℤ → List β) (g : β → γ) :
    ∀ (m : ℕ) (s : ℤ),
      ((intRangeAux s m).flatMap f).map g
        = (intRangeAux s m).flatMap fun i => (f i).map g := by
  intro m
  induction m with
  | zero => intro s; rfl
  | succ m ih =>
      intro s
      simp only [intRangeAux, List.flatMap_cons, List.map_append, ih]

theorem earlyStopping_step_stagnant (p c : ℕ) (δ best v : ℚ)
    (hv : ¬ v < best - δ) :
    EarlyStopping.step ⟨p, δ, some best, c, false⟩ v
      = ⟨p, δ, some best, c + 1, decide (p ≤ c + 1)⟩ := by
  simp [EarlyStopping.step, hv]

theorem trainer_run_stagnant (δ : ℚ) (p : ℕ) (best : ℚ) :
    ∀ (vs : List ℚ) (c : ℕ), c < p → (∀ v ∈ vs, ¬ v < best - δ) →
      p - c ≤ vs.length →
      Trainer.run ⟨p, δ, some best, c, false⟩ vs = p - c := by
  intro vs
  induction vs with
  | nil =>
      intro c hc _ hlen
      simp at hlen
      omega
  | cons v vs ih =>
      intro c hc himp hlen
      have hv : ¬ v < best - δ := himp v (List.mem_cons_self v vs)
      simp only [Trainer.run]
      rw [earlyStopping_step_stagnant p c δ best v hv]
      by_cases hpc : p ≤ c + 1
      · rw [decide_eq_true hpc]
        simp only [if_true]
        omega
      · rw [decide_eq_false hpc]
        simp only [Bool.false_eq_true, if_false]
        rw [ih (c + 1) (by omega) (fun w hw => himp w (List.mem_cons_of_mem v hw))
            (by simp only [List.length_cons] at hlen; omega)]
        omega

theorem countSA_intRangeAux_loop (a : SASeq2SeqArgs) :
    ∀ (m : ℕ) (s : ℤ),
      (((intRangeAux s m).flatMap fun i =>
          [("sa_convlstm" ++ Int.repr i,
            Layer.saconvlstm (mkSAConvLSTMArgs a a.numKernels) none),
           ("layernorm" ++ Int.repr i, Layer.layernorm (lnShape a))]).filter
        fun nl => nl.2.isSAConvLSTM).length = m := by
  intro m
  induction m with
  | zero => intro s; rfl
  | succ m ih =>
      intro s
      simp only [intRangeAux, List.flatMap_cons, List.filter_append,
        List.length_append, ih]
      simp [Layer.isSAConvLSTM]
      omega

theorem flatMap_singleton_eq_map {β γ : Type} (f : β → γ) (l : List β) :
    (l.flatMap fun x => [f x]) = l.map f := by
  induction l with
  | nil => rfl
  | cons x xs ih => simp only [List.flatMap_cons, ih, List.map_cons,
      List.singleton_append]

theorem sequential_eq_layeredStackSpec (a : SASeq2SeqArgs)
    (h : 1 ≤ a.numLayers) :
    SASeq2Seq.sequential a = layeredStackSpec a := by
  have hs1 : ("sa_convlstm" ++ Int.repr 1 : String) = "sa_convlstm1" := by
    decide
  have hs2 : ("layernorm" ++ Int.repr 1 : String) = "layernorm1" := by decide
  unfold layeredStackSpec
  rw [intRange_eq_cons 1 (a.numLayers + 1) (by omega), List.flatMap_cons,
      intRange_flatMap_congr
        (fun i =>
          [("sa_convlstm" ++ Int.repr i,
            Layer.saconvlstm
              (mkSAConvLSTMArgs a (if i = 1 then a.numChannels else a.numKernels))
              none),
           ("layernorm" ++ Int.repr i, Layer.layernorm (lnShape a))])
        (fun i =>
          [("sa_convlstm" ++ Int.repr i,
            Layer.saconvlstm (mkSAConvLSTMArgs a a.numKernels) none),
           ("layernorm" ++ Int.repr i, Layer.layernorm (lnShape a))])
        (1 + 1) (a.numLayers + 1)
        (fun i hi => by simp only [if_neg (show ¬ i = 1 by omega)])]
  simp only [SASeq2Seq.sequential, hs1, hs2]
  norm_num [List.append_assoc]

theorem attnMaps_loop (a : SASeq2SeqArgs) (b s : ℕ) :
    ∀ (m : ℕ) (t : ℤ),
      getAttentionMaps
        (((((intRangeAux t m).flatMap fun i =>
              [("sa_convlstm" ++ Int.repr i,
                Layer.saconvlstm
                  (mkSAConvLSTMArgs a
                    (if i = 1 then a.numChannels else a.numKernels)) none),
               ("layernorm" ++ Int.repr i, Layer.layernorm (lnShape a))])
            ++ [("conv3d",
                 Layer.conv3d a.numKernels (SASeq2Seq.outChannelsResolved a)
                   (3, 3, 3) "same"),
                ("sigmoid", Layer.sigmoid)]).map fun nl =>
            ("sequential." ++ nl.1, nl.2)).map fun nl =>
          (nl.1, forwardAttnLayer b s nl.2))
      = (intRangeAux t m).map fun i =>
          ("sequential.sa_convlstm" ++ Int.repr i,
           some (b, s, a.frameHeight * a.frameWidth)) := by
  have hlit : ("sequential." ++ "sa_convlstm" : String) = "sequential.sa_convlstm" := by
    decide
  intro m
  induction m with
  | zero => intro t; rfl
  | succ m ih =>
      intro t
      simp only [intRangeAux, List.flatMap_cons, List.cons_append,
        List.map_cons, List.append_assoc, getAttentionMaps,
        List.filterMap_cons, forwardAttnLayer, mkSAConvLSTMArgs]
      rw [← String.append_assoc, hlit]
      exact congrArg (List.cons _) (ih (t + 1))

theorem stackShape_intRangeAux_loop (a : SASeq2SeqArgs) (bsz : ℕ) :
    ∀ (m : ℕ) (t : ℤ),
      stackShape
        (((intRangeAux t m).flatMap fun i =>
            [("sa_convlstm" ++ Int.repr i,
              Layer.saconvlstm (mkSAConvLSTMArgs a a.numKernels) none),
             ("layernorm" ++ Int.repr i, Layer.layernorm (lnShape a))]).map
          Prod.snd)
        ⟨bsz, a.numKernels, a.inputSeqLength, a.frameHeight, a.frameWidth⟩
      = some ⟨bsz, a.numKernels, a.inputSeqLength, a.frameHeight, a.frameWidth⟩ := by
  intro m
  induction m with
  | zero => intro t; rfl
  | succ m ih =>
      intro t
      rw [show intRangeAux t (m + 1) = t :: intRangeAux (t + 1) m from rfl,
        List.flatMap_cons, List.map_append, stackShape_append]
      have hhead :
          stackShape
            ([("sa_convlstm" ++ Int.repr t,
               Layer.saconvlstm (mkSAConvLSTMArgs a a.numKernels) none),
              ("layernorm" ++ Int.repr t, Layer.layernorm (lnShape a))].map
              Prod.snd)
            ⟨bsz, a.numKernels, a.inputSeqLength, a.frameHeight, a.frameWidth⟩
            = some ⟨bsz, a.numKernels, a.inputSeqLength, a.frameHeight,
                a.frameWidth⟩ := by
        simp [stackShape, layerOutShape, mkSAConvLSTMArgs, lnShape]
      rw [hhead, Option.some_bind]
      exact ih (t + 1)

/-! ## Claim theorems -/

/-- C2: with `EarlyStopping(patience=30, delta=0.0001)` as configured in
`main()` (convlstm.py lines 59-63), once the monitored validation metric has
failed to improve on the best value by more than `delta` for 30 consecutive
epochs, `Trainer.run` halts: from any point where the metric last improved
(counter reset to 0, best value `best`), if every following epoch's metric
fails to improve on `best` by more than `delta`, the loop executes exactly
30 further epochs — never more than 30 epochs past the last improvement. -/
theorem trainer_halts_after_thirty_stagnant_epochs (best : ℚ)
    (valLosses : List ℚ)
    (himp : ∀ v ∈ valLosses, ¬ v < best - (1 / 10000 : ℚ))
    (hlen : 30 ≤ valLosses.length) :
    Trainer.run ⟨30, 1 / 10000, some best, 0, false⟩ valLosses = 30 :=
  trainer_run_stagnant (1 / 10000) 30 best valLosses 0 (by omega) himp
    (by omega)

/-- Witness for C2 at a concrete input: a constant validation metric never
improves, and training then runs exactly 30 epochs. -/
theorem trainer_halts_after_thirty_stagnant_epochs_witness :
    (∀ v ∈ List.replicate 30 (1 : ℚ), ¬ v < 1 - (1 / 10000 : ℚ))
    ∧ Trainer.run ⟨30, 1 / 10000, some 1, 0, false⟩ (List.replicate 30 (1 : ℚ))
        = 30 :=
  ⟨by simp,
   trainer_halts_after_thirty_stagnant_epochs 1 (List.replicate 30 (1 : ℚ))
     (by simp) (by simp)⟩

/-- C4: `SASeq2Seq.forward` returns the full sequential output when
`return_sequences` is `True`; otherwise it returns `output[:, :, -1:, ...]`,
the last time step, with the temporal dimension retained at size 1 and all
other dimensions unchanged. -/
theorem forward_keeps_sequence_or_slices_last_step (f : Tensor → Tensor)
    (X : Tensor) :
    SASeq2Seq.forward f true X = f X
    ∧ (SASeq2Seq.forward f false X).shape.time = 1
    ∧ (SASeq2Seq.forward f false X).shape.batch = (f X).shape.batch
    ∧ (SASeq2Seq.forward f false X).shape.channels = (f X).shape.channels
    ∧ (SASeq2Seq.forward f false X).shape.height = (f X).shape.height
    ∧ (SASeq2Seq.forward f false X).shape.width = (f X).shape.width
    ∧ ∀ b c h w, (SASeq2Seq.forward f false X).data b c 0 h w
        = (f X).data b c ((f X).shape.time - 1) h w := by
  refine ⟨rfl, rfl, rfl, rfl, rfl, rfl, ?_⟩
  intro b c h w
  simp [SASeq2Seq.forward, sliceLastTimeStep]

/-- C5: `MovingMNISTDataLoaders` partitions the dataset into the train,
validation and test splits (their concatenation is the whole dataset), and
on the test's mocked dataset of length 10 with `train_batch_size=2` the
three dataloaders have 4, 2 and 1 batches. -/
theorem movingMNIST_loaders_partition_and_counts :
    (∀ (α : Type) (ds : List α),
        trainSplit ds ++ validationSplit ds ++ testSplit ds = ds)
    ∧ (MovingMNISTDataLoaders.ofDataset mockMovingMNIST 2 10).trainDataloader.length = 4
    ∧ (MovingMNISTDataLoaders.ofDataset mockMovingMNIST 2 10).validationDataloader.length = 2
    ∧ (MovingMNISTDataLoaders.ofDataset mockMovingMNIST 2 10).testDataloader.length = 1 := by
  refine ⟨?_, by decide, by decide, by decide⟩
  intro α ds
  simp [trainSplit, validationSplit, testSplit, List.append_assoc]

/-- C6: `main()` (convlstm.py) executes its phases in a fixed order — it
constructs the dataloaders, later calls `trainer.run()`, and calls
`evaluator.run()` only after that; each of these phases occurs exactly once,
and every occurrence of evaluation comes strictly after every occurrence of
training. -/
theorem main_trains_before_evaluating :
    mainTrace.count PipelineEvent.constructDataLoaders = 1
    ∧ mainTrace.count PipelineEvent.trainerRun = 1
    ∧ mainTrace.count PipelineEvent.evaluatorRun = 1
    ∧ mainTrace.indexOf PipelineEvent.constructDataLoaders
        < mainTrace.indexOf PipelineEvent.trainerRun
    ∧ mainTrace.indexOf PipelineEvent.trainerRun
        < mainTrace.indexOf PipelineEvent.evaluatorRun := by
  decide

/-- C9: the first `SAConvLSTM` layer and its `LayerNorm` are added before
the loop over `range(2, num_layers + 1)` and unconditionally; hence for
every `num_layers` value, including zero and negative values, the model
contains at least one `SAConvLSTM` layer, and the number of `SAConvLSTM`
submodules is `max(num_layers, 1)`. -/
theorem sequential_always_has_first_layer (a : SASeq2SeqArgs) :
    (SASeq2Seq.sequential a).take 2
      = [("sa_convlstm1", Layer.saconvlstm (mkSAConvLSTMArgs a a.numChannels) none),
         ("layernorm1", Layer.layernorm (lnShape a))]
    ∧ ((SASeq2Seq.sequential a).filter fun nl => nl.2.isSAConvLSTM).length
        = (max a.numLayers 1).toNat
    ∧ 1 ≤ ((SASeq2Seq.sequential a).filter fun nl => nl.2.isSAConvLSTM).length := by
  have hcount : ((SASeq2Seq.sequential a).filter fun nl => nl.2.isSAConvLSTM).length
      = (max a.numLayers 1).toNat := by
    have hloop := countSA_intRangeAux_loop a ((a.numLayers + 1 - 2).toNat) 2
    simp only [SASeq2Seq.sequential, intRange, List.filter_append,
      List.length_append]
    rw [hloop]
    simp [Layer.isSAConvLSTM]
    omega
  exact ⟨rfl, hcount, by rw [hcount]; omega⟩

/-- C1 counterexample: at the test's own configuration (mocked dataset of
length 10, `train_batch_size=2`, `input_frames=10`, the values asserted in
`src/tests/data_loaders/test_moving_mnist.py`) it is NOT the case that every
train batch has batch dimension 2 and windows of temporal length 10: the 7
training samples yield batches of sizes [2, 2, 2, 1], and the last batch has
batch dimension 1 ≠ 2. -/
theorem trainDataloader_uniform_batches_false :
    ¬ (∀ b ∈ (MovingMNISTDataLoaders.ofDataset mockMovingMNIST 2 10).trainDataloader,
        b.length = 2 ∧ ∀ p ∈ b, p.1.length = 10 ∧ p.2.length = 10) := by
  decide

/-- C1 (amended): every batch of the train dataloader consists of samples
whose input and target windows both have temporal length `input_frames`
(provided the videos hold `2 * input_frames ≤ 20` frames), and every batch
EXCEPT POSSIBLY THE LAST has batch dimension `train_batch_size`; the final
batch holds the remainder of the training split. -/
theorem trainDataloader_batch_shapes {α : Type} (ds : List (List α))
    (bs inF : ℕ) (hbs : 0 < bs)
    (hvid : ∀ v ∈ ds, v.length = movingMNISTNumFrames)
    (hinF : 2 * inF ≤ movingMNISTNumFrames) :
    (∀ b ∈ (MovingMNISTDataLoaders.ofDataset ds bs inF).trainDataloader,
        ∀ p ∈ b, p.1.length = inF ∧ p.2.length = inF)
    ∧ ∀ b ∈ ((MovingMNISTDataLoaders.ofDataset ds bs inF).trainDataloader).dropLast,
        b.length = bs := by
  simp only [MovingMNISTDataLoaders.ofDataset, chunked]
  simp only [movingMNISTNumFrames] at hvid hinF
  constructor
  · intro b hb p hp
    have hpmem : p ∈ (trainSplit ds).map (windowVideo inF) :=
      mem_of_mem_chunkAux hb p hp
    rcases List.mem_map.mp hpmem with ⟨v, hv, hw⟩
    have hvds : v ∈ ds := List.take_subset _ _ hv
    have hlen : v.length = 20 := hvid v hvds
    subst hw
    simp only [windowVideo, List.length_take, List.length_drop]
    omega
  · intro b hb
    exact length_of_mem_dropLast_chunkAux hbs _ _ le_rfl b hb

/-- C3: for every `num_layers ≥ 1`, the `SASeq2Seq` constructor builds
exactly `num_layers` `SAConvLSTM` layers, each immediately followed by a
`LayerNorm` over `[num_kernels, input_seq_length, height, width]`, then one
`Conv3d` from `num_kernels` to the resolved `out_channels` with kernel size
`(3,3,3)` and `'same'` padding, then a `Sigmoid`; the first `SAConvLSTM` has
`in_channels = num_channels`, every subsequent one `in_channels =
num_kernels`, and all have `out_channels = num_kernels` (this is what
`layeredStackSpec` spells out). -/
theorem saseq2seq_builds_layered_stack (a : SASeq2SeqArgs)
    (h : 1 ≤ a.numLayers) :
    SASeq2Seq.sequential a = layeredStackSpec a :=
  sequential_eq_layeredStackSpec a h

/-- Witness for C3 at the configuration of seq2seq.py's `__main__` block. -/
theorem saseq2seq_builds_layered_stack_witness :
    1 ≤ exampleArgs.numLayers
    ∧ SASeq2Seq.sequential exampleArgs = layeredStackSpec exampleArgs :=
  ⟨by decide, saseq2seq_builds_layered_stack exampleArgs (by decide)⟩

/-- C7: after a forward pass with batch size `b` and sequence length `s`,
`get_attention_maps()` returns a dictionary with exactly one entry per
`SAConvLSTM` submodule of the model, mapping that module's name to its
`attention_scores` of shape `(batch_size, seq_length, height * width)`
(this is what `attentionMapsSpec` spells out). -/
theorem getAttentionMaps_one_entry_per_module (a : SASeq2SeqArgs) (b s : ℕ)
    (h : 1 ≤ a.numLayers) :
    getAttentionMaps ((SASeq2Seq.namedModules a).map fun nl =>
        (nl.1, forwardAttnLayer b s nl.2))
      = attentionMapsSpec a b s := by
  unfold SASeq2Seq.namedModules
  rw [sequential_eq_layeredStackSpec a h]
  unfold layeredStackSpec attentionMapsSpec intRange
  exact attnMaps_loop a b s ((a.numLayers + 1 - 1).toNat) 1

/-- Witness for C7 at the configuration of seq2seq.py's `__main__` block
(batch size 5, sequence length 6). -/
theorem getAttentionMaps_one_entry_per_module_witness :
    1 ≤ exampleArgs.numLayers
    ∧ getAttentionMaps ((SASeq2Seq.namedModules exampleArgs).map fun nl =>
        (nl.1, forwardAttnLayer 5 6 nl.2))
      = attentionMapsSpec exampleArgs 5 6 :=
  ⟨by decide, getAttentionMaps_one_entry_per_module exampleArgs 5 6 (by decide)⟩

/-- C8: the resolved output channel count is `num_channels` when the
constructor receives `out_channels=None` and exactly `k` when it receives
`out_channels=k`; the stack maps an input of shape `(b, num_channels,
input_seq_length, height, width)` to shape `(b, out_channels,
input_seq_length, height, width)`, and with `return_sequences=True` the
forward output keeps the input's temporal length and frame size. -/
theorem out_channels_resolution_and_shape (a : SASeq2SeqArgs) (bsz : ℕ) :
    stackShape ((SASeq2Seq.sequential a).map Prod.snd)
        ⟨bsz, a.numChannels, a.inputSeqLength, a.frameHeight, a.frameWidth⟩
      = some ⟨bsz, SASeq2Seq.outChannelsResolved a, a.inputSeqLength,
          a.frameHeight, a.frameWidth⟩
    ∧ (a.outChannels = none → SASeq2Seq.outChannelsResolved a = a.numChannels)
    ∧ (∀ k, a.outChannels = some k → SASeq2Seq.outChannelsResolved a = k)
    ∧ (a.returnSequences = true →
        SASeq2Seq.forwardShape a
            ⟨bsz, a.numChannels, a.inputSeqLength, a.frameHeight, a.frameWidth⟩
          = some ⟨bsz, SASeq2Seq.outChannelsResolved a, a.inputSeqLength,
              a.frameHeight, a.frameWidth⟩) := by
  have h1 : stackShape
      ([("sa_convlstm1", Layer.saconvlstm (mkSAConvLSTMArgs a a.numChannels) none),
        ("layernorm1", Layer.layernorm (lnShape a))].map Prod.snd)
      ⟨bsz, a.numChannels, a.inputSeqLength, a.frameHeight, a.frameWidth⟩
      = some ⟨bsz, a.numKernels, a.inputSeqLength, a.frameHeight, a.frameWidth⟩ := by
    simp [stackShape, layerOutShape, mkSAConvLSTMArgs, lnShape]
  have h3 : stackShape
      ([("conv3d",
         Layer.conv3d a.numKernels (SASeq2Seq.outChannelsResolved a) (3, 3, 3) "same"),
        ("sigmoid", Layer.sigmoid)].map Prod.snd)
      ⟨bsz, a.numKernels, a.inputSeqLength, a.frameHeight, a.frameWidth⟩
      = some ⟨bsz, SASeq2Seq.outChannelsResolved a, a.inputSeqLength,
          a.frameHeight, a.frameWidth⟩ := by
    simp [stackShape, layerOutShape]
  have hstack : stackShape ((SASeq2Seq.sequential a).map Prod.snd)
      ⟨bsz, a.numChannels, a.inputSeqLength, a.frameHeight, a.frameWidth⟩
      = some ⟨bsz, SASeq2Seq.outChannelsResolved a, a.inputSeqLength,
          a.frameHeight, a.frameWidth⟩ := by
    unfold SASeq2Seq.sequential intRange
    rw [List.map_append, List.map_append, stackShape_append, stackShape_append,
      h1, Option.some_bind,
      stackShape_intRangeAux_loop a bsz ((a.numLayers + 1 - 2).toNat) 2,
      Option.some_bind]
    exact h3
  refine ⟨hstack, ?_, ?_, ?_⟩
  · intro hn; simp [SASeq2Seq.outChannelsResolved, hn]
  · intro k hk; simp [SASeq2Seq.outChannelsResolved, hk]
  · intro hrs
    unfold SASeq2Seq.forwardShape
    rw [hstack]
    simp [hrs]

/-- Witness for C8 at the configuration of seq2seq.py's `__main__` block
(constructed with `out_channels=None` and `return_sequences=True`). -/
theorem out_channels_resolution_and_shape_witness :
    stackShape ((SASeq2Seq.sequential exampleArgs).map Prod.snd)
        ⟨5, exampleArgs.numChannels, exampleArgs.inputSeqLength,
          exampleArgs.frameHeight, exampleArgs.frameWidth⟩
      = some ⟨5, SASeq2Seq.outChannelsResolved exampleArgs,
          exampleArgs.inputSeqLength, exampleArgs.frameHeight,
          exampleArgs.frameWidth⟩
    ∧ (exampleArgs.outChannels = none →
        SASeq2Seq.outChannelsResolved exampleArgs = exampleArgs.numChannels)
    ∧ (∀ k, exampleArgs.outChannels = some k →
        SASeq2Seq.outChannelsResolved exampleArgs = k)
    ∧ (exampleArgs.returnSequences = true →
        SASeq2Seq.forwardShape exampleArgs
            ⟨5, exampleArgs.numChannels, exampleArgs.inputSeqLength,
              exampleArgs.frameHeight, exampleArgs.frameWidth⟩
          = some ⟨5, SASeq2Seq.outChannelsResolved exampleArgs,
              exampleArgs.inputSeqLength, exampleArgs.frameHeight,
              exampleArgs.frameWidth⟩) :=
  out_channels_resolution_and_shape exampleArgs 5

/-- Witness for C1's amended theorem at the test's configuration. -/
theorem trainDataloader_batch_shapes_witness :
    (∀ b ∈ (MovingMNISTDataLoaders.ofDataset mockMovingMNIST 2 10).trainDataloader,
        ∀ p ∈ b, p.1.length = 10 ∧ p.2.length = 10)
    ∧ ∀ b ∈ ((MovingMNISTDataLoaders.ofDataset mockMovingMNIST 2 10).trainDataloader).dropLast,
        b.length = 2 :=
  trainDataloader_batch_shapes mockMovingMNIST 2 10 (by decide) (by decide)
    (by decide)

end SAConvLSTMRepo
